import Mathlib

/-!
Shallow embedding of the RBAC / organization-context core of the
paperless-ai backend (files under `backend/app`): the permission
evaluator (`PermissionChecker`, `OrganizationService.check_user_permission`),
the authorization gates (`RequirePermission`, `RequireRole`), the
organization lifecycle manager (`OrganizationService`), and the
personal-organization bootstrap (`ProfileService`).

Supabase/PostgREST calls are modelled by `StoreResult`: a call either
raises an exception in the Python client or returns a response whose
`.data` may be absent.  Each service method is a Lean function over the
relevant store responses (passed explicitly), mirroring the Python
control flow statement by statement.
-/

namespace PaperlessAI

/-- User / organization / role identifiers (`uuid.UUID` in the source). -/
abbrev UUID := Nat

/-- Outcome of one Supabase client call: the Python call either raises an
exception, or returns a response object whose `.data` field may be `None`. -/
inductive StoreResult (α : Type) where
  | raised : String → StoreResult α
  | ok : Option α → StoreResult α
deriving Repr

/-- A Python exception as seen by `except` blocks: either a
`fastapi.HTTPException` (which subclasses `Exception`) carrying a status
code and a detail string, or an exception raised by the store client. -/
inductive PyErr where
  | http : Nat → String → PyErr
  | store : String → PyErr
deriving Repr, DecidableEq

/-- Python `str(e)` on a caught exception: FastAPI renders an
`HTTPException` as `code: detail`; a client exception renders its message. -/
def PyErr.str : PyErr → String
  | .http code detail => toString code ++ ": " ++ detail
  | .store msg => msg

/-- An `HTTPException` surfaced to the HTTP layer. -/
structure HTTPError where
  status_code : Nat
  detail : String
deriving Repr, DecidableEq

/-! ## Data model (schemas/organization.py)

`Organization` mirrors the stored organization row; `settings` is the
free-form map (modelled as an association list), subscription tier and
status are the literal strings accepted by the schema. -/

/-- The `Organization` schema (schemas/organization.py, lines 11-67). -/
structure Organization where
  id : UUID
  name : String
  slug : String
  description : Option String
  logo_url : Option String
  billing_email : Option String
  subscription_tier : String
  subscription_status : String
  max_users : Nat
  max_documents : Nat
  max_storage_bytes : Nat
  settings : List (String × String)
deriving Repr, DecidableEq

/-! ## Permission evaluator

`OrganizationService.check_user_permission` calls the `user_has_permission`
RPC inside `try/except`, returning `response.data` when it is not `None`
and `False` on missing data or any exception.  The RPC outcome for each
`(user, org, permission)` triple is abstracted as a `StoreResult Bool`
valued function (the store oracle). -/

/-- The oracle behind the `user_has_permission` RPC: what the store call
returns (or raises) for a given user, organization and permission name. -/
def PermOracle : Type := UUID → UUID → String → StoreResult Bool

/-- `OrganizationService.check_user_permission` (organization_service.py,
lines 252-267). -/
def check_user_permission (rpc : PermOracle) (user_id org_id : UUID)
    (permission : String) : Bool :=
  match rpc user_id org_id permission with
  | .raised _ => false
  | .ok none => false
  | .ok (some b) => b

/-- `PermissionChecker.check_permission` (permissions.py, lines 15-22):
delegates to `check_user_permission`. -/
def check_permission (rpc : PermOracle) (user_id org_id : UUID)
    (permission : String) : Bool :=
  check_user_permission rpc user_id org_id permission

/-- `PermissionChecker.check_any_permission` (permissions.py, lines 24-34):
loop over the list, return `True` at the first permission that checks. -/
def check_any_permission (rpc : PermOracle) (user_id org_id : UUID) :
    List String → Bool
  | [] => false
  | p :: ps =>
      if check_permission rpc user_id org_id p then true
      else check_any_permission rpc user_id org_id ps

/-- `PermissionChecker.check_all_permissions` (permissions.py, lines 36-46):
loop over the list, return `False` at the first permission that fails. -/
def check_all_permissions (rpc : PermOracle) (user_id org_id : UUID) :
    List String → Bool
  | [] => true
  | p :: ps =>
      if ¬ check_permission rpc user_id org_id p then false
      else check_all_permissions rpc user_id org_id ps

/-- A concrete store oracle that raises on `document.view` and returns no
data on every other permission (used as the C1 witness input). -/
def failingOracle : PermOracle := fun _ _ p =>
  if p = "document.view" then StoreResult.raised "network down"
  else StoreResult.ok none

/-! ## Authorization gate (permissions.py, `RequirePermission`) -/

/-- The request-scoped environment a gate call sees: the permission RPC
oracle and the result of `OrganizationService.get_current_organization`
for each user. -/
structure GateEnv where
  rpc : PermOracle
  currentOrg : UUID → Option Organization

/-- The dictionary returned by `RequirePermission.__call__` on allow. -/
structure GateToken where
  user_id : UUID
  org_id : UUID
  permissions : List String
deriving Repr, DecidableEq

/-- The permission check and allow/deny tail of `RequirePermission.__call__`
(permissions.py, lines 91-111), after the organization id is resolved. -/
def requirePermissionDecide (perms : List String) (require_all : Bool)
    (env : GateEnv) (user_id org_id : UUID) : Except HTTPError GateToken :=
  let has_permission :=
    if require_all then check_all_permissions env.rpc user_id org_id perms
    else check_any_permission env.rpc user_id org_id perms
  if ¬ has_permission then
    .error ⟨403, "Missing required permission(s): " ++ String.intercalate ", " perms⟩
  else
    .ok ⟨user_id, org_id, perms⟩

/-- `RequirePermission.__call__` (permissions.py, lines 72-111): resolve the
organization (explicit parameter, else the current-organization context,
else a 400), then evaluate and allow or deny. -/
def requirePermissionCall (perms : List String) (require_all : Bool)
    (env : GateEnv) (user_id : UUID) (org_id? : Option UUID) :
    Except HTTPError GateToken :=
  match org_id? with
  | some oid => requirePermissionDecide perms require_all env user_id oid
  | none =>
      match env.currentOrg user_id with
      | none => .error ⟨400, "No organization context available"⟩
      | some current_org =>
          requirePermissionDecide perms require_all env user_id current_org.id

/-- A concrete gate environment with no organization context for any user
(used as the C2 witness input). -/
def noContextEnv : GateEnv :=
  { rpc := fun _ _ _ => StoreResult.ok (some true), currentOrg := fun _ => none }

/-! ## Partial organization updates
(organization_service.py `update_organization`, schemas `OrganizationUpdate`)

`OrganizationUpdate` has four optional fields (name, description, logo_url,
settings); each carries a `_set` flag modelling whether the field was
supplied in the request payload (pydantic `exclude_unset=True` drops
unsupplied fields from `model_dump`).  `update_organization` builds
`update_data` from the supplied fields whose value is not `None` and the
store writes exactly those columns of the row. -/

/-- The `OrganizationUpdate` schema (schemas/organization.py, lines 38-45),
with explicit supplied-or-not flags for `exclude_unset` semantics. -/
structure OrganizationUpdate where
  name : Option String
  name_set : Bool
  description : Option String
  description_set : Bool
  logo_url : Option String
  logo_url_set : Bool
  settings : Option (List (String × String))
  settings_set : Bool
deriving Repr, DecidableEq

/-- Whether a field survives into `update_data`: it was supplied in the
payload (`exclude_unset=True` keeps it) and its value is not `None`
(the `if v is not None` filter in `update_organization`). -/
def fieldWritten {α : Type} (isSet : Bool) (v : Option α) : Bool :=
  isSet && v.isSome

/-- `OrganizationService.update_organization` (organization_service.py,
lines 104-124): the store applies `update_data` to the organization row;
every column absent from `update_data` keeps its stored value. -/
def update_organization (org : Organization) (u : OrganizationUpdate) :
    Organization :=
  let org := if fieldWritten u.name_set u.name
    then { org with name := u.name.getD org.name } else org
  let org := if fieldWritten u.description_set u.description
    then { org with description := u.description } else org
  let org := if fieldWritten u.logo_url_set u.logo_url
    then { org with logo_url := u.logo_url } else org
  if fieldWritten u.settings_set u.settings
    then { org with settings := u.settings.getD org.settings } else org

/-- A concrete stored organization row (witness input). -/
def acmeOrg : Organization :=
  { id := 11, name := "Acme", slug := "acme", description := some "old text"
    logo_url := none, billing_email := none, subscription_tier := "free"
    subscription_status := "trial", max_users := 5, max_documents := 1000
    max_storage_bytes := 5368709120, settings := [("theme", "dark")] }

/-- A concrete update payload supplying only a description (witness input). -/
def descriptionOnlyUpdate : OrganizationUpdate :=
  { name := none, name_set := false, description := some "new text"
    description_set := true, logo_url := none, logo_url_set := false
    settings := none, settings_set := false }

/-! ## Member creation and organization creation
(organization_service.py `add_organization_member`, `create_organization`;
endpoints/organizations.py `add_organization_member`) -/

/-- The `OrganizationMemberCreate` schema (schemas/organization.py,
lines 111-121); `is_active` defaults to true. -/
structure OrganizationMemberCreate where
  organization_id : UUID
  user_id : UUID
  role_id : UUID
  is_active : Bool
deriving Repr, DecidableEq

/-- A stored membership row as returned by the store on insert. -/
structure OrganizationMember where
  id : UUID
  organization_id : UUID
  user_id : UUID
  role_id : UUID
  is_active : Bool
deriving Repr, DecidableEq

/-- The `add_organization_member` endpoint (endpoints/organizations.py,
lines 104-114): before calling the service it overwrites the body's
`organization_id` with the URL path parameter, so the row handed to the
insert always targets the path organization. -/
def add_organization_member_endpoint_payload (org_id : UUID)
    (member_data : OrganizationMemberCreate) : OrganizationMemberCreate :=
  { member_data with organization_id := org_id }

/-- `OrganizationService.add_organization_member` (organization_service.py,
lines 149-163): insert the member row; absent response data raises a 400. -/
def add_organization_member_service
    (insertResult : StoreResult OrganizationMember) :
    Except PyErr OrganizationMember :=
  match insertResult with
  | .raised msg => .error (.store msg)
  | .ok none => .error (.http 400 "Failed to add organization member")
  | .ok (some m) => .ok m

/-- The store responses `create_organization` observes: the organization
insert, the `org_owner` role lookup (the role id), and the owner-membership
insert. -/
structure CreateOrgEnv where
  orgInsert : StoreResult Organization
  roleLookup : StoreResult UUID
  memberInsert : OrganizationMemberCreate → StoreResult OrganizationMember

/-- The `try` body of `OrganizationService.create_organization`
(organization_service.py, lines 20-62): insert the organization (no data →
400), look up the `org_owner` role (no data → an `HTTPException` with
status 500 and detail "org_owner role not found"), then add the owner
membership. -/
def create_organization_inner (env : CreateOrgEnv) (owner_user_id : UUID) :
    Except PyErr Organization :=
  match env.orgInsert with
  | .raised msg => .error (.store msg)
  | .ok none => .error (.http 400 "Organization creation failed")
  | .ok (some organization) =>
      match env.roleLookup with
      | .raised msg => .error (.store msg)
      | .ok none => .error (.http 500 "org_owner role not found")
      | .ok (some owner_role_id) =>
          let member_data : OrganizationMemberCreate :=
            { organization_id := organization.id, user_id := owner_user_id
              role_id := owner_role_id, is_active := true }
          match add_organization_member_service (env.memberInsert member_data) with
          | .error e => .error e
          | .ok _ => .ok organization

/-- `OrganizationService.create_organization` (organization_service.py,
lines 18-68).  The whole body sits in `try/except Exception as e`, and
`fastapi.HTTPException` subclasses `Exception`: every failure — the inner
500 included — is caught and re-raised as a 400 whose detail wraps
`str(e)`. -/
def create_organization (env : CreateOrgEnv) (owner_user_id : UUID) :
    Except HTTPError Organization :=
  match create_organization_inner env owner_user_id with
  | .ok org => .ok org
  | .error e => .error ⟨400, "Organization creation failed: " ++ e.str⟩

/-- A concrete environment where the organization insert succeeds but the
`org_owner` role lookup returns no row (the C4 failing input). -/
def roleMissingEnv : CreateOrgEnv :=
  { orgInsert := .ok (some acmeOrg), roleLookup := .ok none
    memberInsert := fun _ => .ok none }

/-- The full add-member endpoint: the store's insert outcome is a function
of the row actually sent to it, and the endpoint sends the body with its
`organization_id` overwritten by the path parameter. -/
def add_organization_member_endpoint (org_id : UUID)
    (member_data : OrganizationMemberCreate)
    (insertFor : OrganizationMemberCreate → StoreResult OrganizationMember) :
    Except PyErr OrganizationMember :=
  add_organization_member_service
    (insertFor (add_organization_member_endpoint_payload org_id member_data))

/-! ## The `user_permissions` view, `get_user_permissions` and
`get_organization_members` (organization_service.py) -/

/-- One row of the `user_permissions` database view: a user's active
membership in an organization with the role's name, display name and
permission list.  The view does not expose the membership row id, the role
id or the join timestamp. -/
structure UserPermissionsRow where
  organization_id : UUID
  user_id : UUID
  role_name : String
  role_display_name : String
  permissions : List String
deriving Repr, DecidableEq

/-- The `.eq(user_id).eq(organization_id).single()` query of
`get_user_permissions`: the first view row for this user and
organization, if any. -/
def queryUserPermissionsRow (rows : List UserPermissionsRow)
    (user_id org_id : UUID) : Option UserPermissionsRow :=
  rows.find? (fun r => r.user_id == user_id && r.organization_id == org_id)

/-- `OrganizationService.get_user_permissions` (organization_service.py,
lines 269-282): return the row's permission list when the row exists and
its `permissions` entry is truthy (a non-empty list); otherwise `[]`. -/
def get_user_permissions (rows : List UserPermissionsRow)
    (user_id org_id : UUID) : List String :=
  match queryUserPermissionsRow rows user_id org_id with
  | some row => if row.permissions.isEmpty then [] else row.permissions
  | none => []

/-- `OrganizationMemberWithDetails` (schemas/organization.py,
lines 131-144).  It inherits `joined_at: datetime` from
`OrganizationMember` — a required, non-optional field, so a validated
instance always carries a join timestamp. -/
structure OrganizationMemberWithDetails where
  id : UUID
  organization_id : UUID
  user_id : UUID
  role_id : UUID
  is_active : Bool
  joined_at : Nat
  role_name : String
  role_display_name : String
  permissions : List String
deriving Repr, DecidableEq

/-- The pydantic `ValidationError` raised when `None` is passed for the
required `joined_at: datetime` field of `OrganizationMemberWithDetails`. -/
def joinedAtValidationError : PyErr :=
  .store
    "ValidationError: OrganizationMemberWithDetails.joined_at: none is not a valid datetime"

/-- The pydantic constructor of `OrganizationMemberWithDetails`: of the
arguments `get_organization_members` passes, only `joined_at` can violate
the schema — it is declared as a required `datetime`, so passing `None`
(modelled as the `Option Nat` argument being `none`) raises a
`ValidationError` instead of producing an instance. -/
def mkOrganizationMemberWithDetails (id organization_id user_id role_id : UUID)
    (is_active : Bool) (joined_at : Option Nat)
    (role_name role_display_name : String) (permissions : List String) :
    Except PyErr OrganizationMemberWithDetails :=
  match joined_at with
  | none => .error joinedAtValidationError
  | some t =>
      .ok { id := id, organization_id := organization_id, user_id := user_id
            role_id := role_id, is_active := is_active, joined_at := t
            role_name := role_name, role_display_name := role_display_name
            permissions := permissions }

/-- The member-building loop of `get_organization_members`
(organization_service.py, lines 175-190): one constructor call per view
row; `gen k` is the `k`-th `uuid.uuid4()` draw of the request, so row `i`
would receive the draws `k + 2i` (member id) and `k + 2i + 1` (role id),
with `is_active` hard-coded true and `joined_at` hard-coded `None` — which
the pydantic constructor rejects, aborting the loop with the raised
`ValidationError`. -/
def buildMembers (gen : Nat → UUID) (k : Nat) :
    List UserPermissionsRow → Except PyErr (List OrganizationMemberWithDetails)
  | [] => .ok []
  | row :: rest =>
      match mkOrganizationMemberWithDetails (gen k) row.organization_id
          row.user_id (gen (k + 1)) true none row.role_name
          row.role_display_name row.permissions with
      | .error e => .error e
      | .ok member =>
          match buildMembers gen (k + 2) rest with
          | .error e => .error e
          | .ok members => .ok (member :: members)

/-- `OrganizationService.get_organization_members` (organization_service.py,
lines 165-190), given the view rows for the organization and the request's
stream of fresh `uuid4` draws.  There is no `try/except` around the loop,
so the constructor's `ValidationError` propagates to the caller. -/
def get_organization_members (gen : Nat → UUID)
    (rows : List UserPermissionsRow) :
    Except PyErr (List OrganizationMemberWithDetails) :=
  buildMembers gen 0 rows

/-! ## Organization context (organization_service.py, lines 285-330) -/

/-- One row of `user_organization_context`: `user_id` is the unique key. -/
structure ContextRow where
  user_id : UUID
  current_organization_id : UUID
deriving Repr, DecidableEq

/-- The store state the context operations touch: the per-user context
rows and the organizations table. -/
structure OrgContextState where
  contexts : List ContextRow
  organizations : List Organization
deriving Repr, DecidableEq

/-- The `upsert` on `user_organization_context`: replace the row keyed by
`user_id` (atomically), keeping the other rows. -/
def upsertContext (s : OrgContextState) (user_id org_id : UUID) :
    OrgContextState :=
  { s with contexts :=
      ⟨user_id, org_id⟩ :: s.contexts.filter (fun r => r.user_id != user_id) }

/-- `OrganizationService.set_current_organization` (organization_service.py,
lines 285-305): upsert the context row; the store echoes the upserted row,
so the call succeeds with the confirmation message. -/
def set_current_organization (s : OrgContextState) (user_id org_id : UUID) :
    OrgContextState × Except HTTPError String :=
  (upsertContext s user_id org_id,
    .ok "Organization context updated successfully")

/-- `OrganizationService.get_current_organization` (organization_service.py,
lines 307-330): the `get_current_organization` RPC yields the session
user's context organization id; when present, fetch that organization row;
absent context, absent row, or any raised exception all yield `None`. -/
def get_current_organization (s : OrgContextState) (user_id : UUID) :
    Option Organization :=
  match s.contexts.find? (fun r => r.user_id == user_id) with
  | none => none
  | some row =>
      match s.organizations.find?
          (fun org => org.id == row.current_organization_id) with
      | none => none
      | some org => some org

/-- A concrete context store holding `acmeOrg` and no context rows
(witness input for C7). -/
def acmeState : OrgContextState :=
  { contexts := [], organizations := [acmeOrg] }

/-- A concrete `user_permissions` view with a single membership row
(witness input for C6, failing input for C10). -/
def viewRows : List UserPermissionsRow :=
  [{ organization_id := 2, user_id := 1, role_name := "org_owner"
     role_display_name := "Organization Owner"
     permissions := ["document.view", "org.manage"] }]

/-! ## Profile creation and the personal-organization bootstrap
(profile_service.py) -/

/-- A stored profile row (profiles/schemas/profile.py `Profile`; only the
fields the control flow inspects are carried, the row is otherwise
opaque data). -/
structure Profile where
  id : UUID
  full_name : Option String
deriving Repr, DecidableEq

/-- The user object of `supabase.auth.get_user()`: a present user may
still lack an email. -/
structure AuthUser where
  email : Option String
deriving Repr, DecidableEq

/-- The store responses the personal-organization bootstrap observes:
auth lookup, organization insert (the new row's id), `org_owner` role
lookup, member insert and default-pointer update. -/
structure BootstrapEnv where
  authUser : StoreResult AuthUser
  orgInsert : StoreResult UUID
  roleLookup : StoreResult UUID
  memberInsert : StoreResult Unit
  pointerUpdate : StoreResult Unit

/-- The `try` body of `ProfileService._create_personal_organization`
(profile_service.py, lines 98-161): return early (successfully) when the
auth user or its email is missing, skip silently when the organization
insert or role lookup yields no data, and otherwise run the member insert
and default-pointer update, whose response data is never inspected. -/
def create_personal_organization_inner (env : BootstrapEnv) :
    Except PyErr Unit :=
  match env.authUser with
  | .raised msg => .error (.store msg)
  | .ok none => .ok ()
  | .ok (some user) =>
      match user.email with
      | none => .ok ()
      | some _ =>
          match env.orgInsert with
          | .raised msg => .error (.store msg)
          | .ok none => .ok ()
          | .ok (some _org_id) =>
              match env.roleLookup with
              | .raised msg => .error (.store msg)
              | .ok none => .ok ()
              | .ok (some _role_id) =>
                  match env.memberInsert with
                  | .raised msg => .error (.store msg)
                  | .ok _ =>
                      match env.pointerUpdate with
                      | .raised msg => .error (.store msg)
                      | .ok _ => .ok ()

/-- `ProfileService._create_personal_organization` (profile_service.py,
lines 96-165): the whole body sits in `try/except Exception: ... pass`, so
every failure is swallowed — the call always returns successfully. -/
def create_personal_organization (env : BootstrapEnv) : Except PyErr Unit :=
  match create_personal_organization_inner env with
  | .ok _ => .ok ()
  | .error _ => .ok ()

/-- The store responses `ProfileService.get_profile` observes: the initial
profile select, the profile insert, the bootstrap sub-environment, and the
retry select of the `except` branch. -/
structure GetProfileEnv where
  fetch1 : StoreResult (List Profile)
  createInsert : StoreResult (List Profile)
  bootstrap : BootstrapEnv
  fetch2 : StoreResult (List Profile)

/-- The `except` branch of `get_profile` (profile_service.py, lines 32-47):
refetch the profile; a found row is returned, otherwise a 404 quoting the
original failure. -/
def get_profile_refetch (env : GetProfileEnv) (e : PyErr) :
    Except PyErr Profile :=
  match env.fetch2 with
  | .raised msg => .error (.store msg)
  | .ok d2 =>
      match (d2.getD []).head? with
      | some p => .ok p
      | none => .error (.http 404
          ("Profile not found and could not be created: " ++ e.str))

/-- `ProfileService.get_profile` (profile_service.py, lines 11-47): return
the existing profile row if any; otherwise create a default profile and
run the personal-organization bootstrap inside `try`, falling back to the
refetch branch on any exception. -/
def get_profile (env : GetProfileEnv) : Except PyErr Profile :=
  match env.fetch1 with
  | .raised msg => .error (.store msg)
  | .ok d1 =>
      match (d1.getD []).head? with
      | some p => .ok p
      | none =>
          let attempt : Except PyErr Profile :=
            match env.createInsert with
            | .raised msg => .error (.store msg)
            | .ok dc =>
                match (dc.getD []).head? with
                | some p => .ok p
                | none => .error (.http 400 "Profile creation failed.")
          match attempt with
          | .ok p =>
              match create_personal_organization env.bootstrap with
              | .ok _ => .ok p
              | .error e => get_profile_refetch env e
          | .error e => get_profile_refetch env e

/-- A bootstrap environment whose organization insert raises (witness
input for C8: the bootstrap fails midway). -/
def brokenBootstrapEnv : BootstrapEnv :=
  { authUser := .ok (some { email := some "user@example.com" })
    orgInsert := .raised "insert failed", roleLookup := .ok none
    memberInsert := .ok none, pointerUpdate := .ok none }

/-- A first-login environment: no stored profile, a successful profile
insert, and the broken bootstrap (witness input for C8). -/
def firstLoginEnv : GetProfileEnv :=
  { fetch1 := .ok (some []), createInsert := .ok (some [{ id := 9, full_name := none }])
    bootstrap := brokenBootstrapEnv, fetch2 := .ok none }

/-! ## Role gate (permissions.py, `RequireRole`) -/

/-- The dictionary returned by `RequireRole.__call__` on allow. -/
structure RoleToken where
  user_id : UUID
  org_id : UUID
  role : String
deriving Repr, DecidableEq

/-- The request-scoped environment a role-gate call sees: the
current-organization lookup, the `user_permissions` view rows per
organization, and the request's stream of fresh `uuid4` draws. -/
structure RoleGateEnv where
  currentOrg : UUID → Option Organization
  memberRows : UUID → List UserPermissionsRow
  uuidGen : Nat → UUID

/-- The member-matching tail of `RequireRole.__call__` (permissions.py,
lines 137-150): find the first member whose `user_id` matches the caller;
no match or a role name outside the allowed set is a 403, otherwise the
role token is returned. -/
def memberRoleDecision (roles : List String)
    (members : List OrganizationMemberWithDetails) (user_id org_id : UUID) :
    Except PyErr RoleToken :=
  match members.find? (fun m => m.user_id == user_id) with
  | none => .error (.http 403
      ("Missing required role(s): " ++ String.intercalate ", " roles))
  | some user_member =>
      if roles.contains user_member.role_name then
        .ok ⟨user_id, org_id, user_member.role_name⟩
      else
        .error (.http 403
          ("Missing required role(s): " ++ String.intercalate ", " roles))

/-- `RequireRole.__call__` (permissions.py, lines 120-150): resolve the
current organization (absent context is a 400), fetch the organization's
members via `get_organization_members` — whose raised exception, the
`ValidationError` included, propagates, there being no `try/except` — and
otherwise decide from the matching member's role name. -/
def requireRoleCall (roles : List String) (env : RoleGateEnv)
    (user_id : UUID) : Except PyErr RoleToken :=
  match env.currentOrg user_id with
  | none => .error (.http 400 "No organization context available")
  | some current_org =>
      match get_organization_members env.uuidGen
          (env.memberRows current_org.id) with
      | .error e => .error e
      | .ok members =>
          memberRoleDecision roles members user_id current_org.id

/-- A concrete role-gate environment: every user's current organization is
`acmeOrg` and the view holds the single row of `viewRows` (the C10 failing
input: one stored member). -/
def acmeRoleEnv : RoleGateEnv :=
  { currentOrg := fun _ => some acmeOrg, memberRows := fun _ => viewRows
    uuidGen := fun n => 100 + n }

/-! # Theorems -/

/-- C1: for every oracle behaviour the evaluator yields a boolean (it is a
total `Bool`-valued function, so it cannot raise); a raised store exception
or an absent `response.data` both yield `false`, and present data is
returned as is. -/
theorem check_user_permission_fail_closed (rpc : PermOracle)
    (user_id org_id : UUID) (permission : String) :
    (∀ msg, rpc user_id org_id permission = .raised msg →
      check_user_permission rpc user_id org_id permission = false) ∧
    (rpc user_id org_id permission = .ok none →
      check_user_permission rpc user_id org_id permission = false) ∧
    (∀ b, rpc user_id org_id permission = .ok (some b) →
      check_user_permission rpc user_id org_id permission = b) := by
  refine ⟨fun _ h => by simp [check_user_permission, h],
    fun h => by simp [check_user_permission, h],
    fun _ h => by simp [check_user_permission, h]⟩

/-- Witness for C1: on the concrete raising oracle the check evaluates to
`false`. -/
theorem check_user_permission_fail_closed_witness :
    failingOracle 1 2 "document.view" = .raised "network down" ∧
    check_user_permission failingOracle 1 2 "document.view" = false :=
  ⟨by simp [failingOracle],
    (check_user_permission_fail_closed failingOracle 1 2 "document.view").1
      "network down" (by simp [failingOracle])⟩

/-- C3: `check_any_permission` is the logical OR of `check_permission`
over the list (false on `[]`), `check_all_permissions` is the logical AND
(true on `[]`), and both coincide with `check_permission` on a
single-element list. -/
theorem check_any_all_or_and (rpc : PermOracle) (user_id org_id : UUID) :
    (∀ ps : List String,
      check_any_permission rpc user_id org_id ps
        = ps.any (check_permission rpc user_id org_id)) ∧
    (∀ ps : List String,
      check_all_permissions rpc user_id org_id ps
        = ps.all (check_permission rpc user_id org_id)) ∧
    check_any_permission rpc user_id org_id [] = false ∧
    check_all_permissions rpc user_id org_id [] = true ∧
    (∀ p : String,
      check_any_permission rpc user_id org_id [p]
        = check_permission rpc user_id org_id p ∧
      check_all_permissions rpc user_id org_id [p]
        = check_permission rpc user_id org_id p) := by
  have hany : ∀ ps : List String,
      check_any_permission rpc user_id org_id ps
        = ps.any (check_permission rpc user_id org_id) := by
    intro ps
    induction ps with
    | nil => rfl
    | cons p ps ih =>
        by_cases h : check_permission rpc user_id org_id p
        · simp [check_any_permission, List.any_cons, h]
        · simp [check_any_permission, List.any_cons, h, ih]
  have hall : ∀ ps : List String,
      check_all_permissions rpc user_id org_id ps
        = ps.all (check_permission rpc user_id org_id) := by
    intro ps
    induction ps with
    | nil => rfl
    | cons p ps ih =>
        by_cases h : check_permission rpc user_id org_id p
        · simp [check_all_permissions, List.all_cons, h, ih]
        · simp [check_all_permissions, List.all_cons, h]
  refine ⟨hany, hall, rfl, rfl, ?_⟩
  intro p
  constructor
  · rw [hany]
    simp [List.any_cons]
  · rw [hall]
    simp [List.all_cons]

/-- C2: with no explicit organization id, the gate rejects with a 400
"No organization context available" when the user has no current
organization; with a resolved context it rejects with 403 listing the
missing permission names on deny, and on allow returns the token carrying
the user id, the resolved organization id and the permission set. -/
theorem requirePermission_no_explicit_org (perms : List String)
    (require_all : Bool) (env : GateEnv) (user_id : UUID) :
    (env.currentOrg user_id = none →
      requirePermissionCall perms require_all env user_id none
        = .error ⟨400, "No organization context available"⟩) ∧
    (∀ org : Organization, env.currentOrg user_id = some org →
      (if require_all then check_all_permissions env.rpc user_id org.id perms
       else check_any_permission env.rpc user_id org.id perms) = false →
      requirePermissionCall perms require_all env user_id none
        = .error ⟨403, "Missing required permission(s): "
            ++ String.intercalate ", " perms⟩) ∧
    (∀ org : Organization, env.currentOrg user_id = some org →
      (if require_all then check_all_permissions env.rpc user_id org.id perms
       else check_any_permission env.rpc user_id org.id perms) = true →
      requirePermissionCall perms require_all env user_id none
        = .ok ⟨user_id, org.id, perms⟩) := by
  refine ⟨fun h => by simp [requirePermissionCall, h], ?_, ?_⟩
  · intro org hctx hdeny
    simp [requirePermissionCall, hctx, requirePermissionDecide, hdeny]
  · intro org hctx hallow
    simp [requirePermissionCall, hctx, requirePermissionDecide, hallow]

/-- C5: `update_organization` writes only fields supplied with a non-null
value.  The id, slug, billing email, subscription tier and status, and all
three quota fields are never touched (the `OrganizationUpdate` schema does
not even carry them); each updateable field is left unchanged when it was
not supplied in the payload or was explicitly supplied as null. -/
theorem update_organization_only_supplied (org : Organization)
    (u : OrganizationUpdate) :
    ((update_organization org u).id = org.id ∧
     (update_organization org u).slug = org.slug ∧
     (update_organization org u).billing_email = org.billing_email ∧
     (update_organization org u).subscription_tier = org.subscription_tier ∧
     (update_organization org u).subscription_status
        = org.subscription_status ∧
     (update_organization org u).max_users = org.max_users ∧
     (update_organization org u).max_documents = org.max_documents ∧
     (update_organization org u).max_storage_bytes = org.max_storage_bytes) ∧
    ((u.name_set = false ∨ u.name = none) →
      (update_organization org u).name = org.name) ∧
    ((u.description_set = false ∨ u.description = none) →
      (update_organization org u).description = org.description) ∧
    ((u.logo_url_set = false ∨ u.logo_url = none) →
      (update_organization org u).logo_url = org.logo_url) ∧
    ((u.settings_set = false ∨ u.settings = none) →
      (update_organization org u).settings = org.settings) := by
  have h : update_organization org u =
      { org with
        name := if fieldWritten u.name_set u.name
          then u.name.getD org.name else org.name
        description := if fieldWritten u.description_set u.description
          then u.description else org.description
        logo_url := if fieldWritten u.logo_url_set u.logo_url
          then u.logo_url else org.logo_url
        settings := if fieldWritten u.settings_set u.settings
          then u.settings.getD org.settings else org.settings } := by
    unfold update_organization
    split_ifs <;> rfl
  rw [h]
  refine ⟨⟨rfl, rfl, rfl, rfl, rfl, rfl, rfl, rfl⟩, ?_, ?_, ?_, ?_⟩ <;>
    · rintro (hs | hn)
      · simp [fieldWritten, hs]
      · simp [fieldWritten, hn]

/-- Witness for C5: updating the concrete organization with the
description-only payload leaves name, settings (and quotas, by the
unconditional part) unchanged. -/
theorem update_organization_only_supplied_witness :
    (update_organization acmeOrg descriptionOnlyUpdate).name = acmeOrg.name ∧
    (update_organization acmeOrg descriptionOnlyUpdate).settings
      = acmeOrg.settings ∧
    (update_organization acmeOrg descriptionOnlyUpdate).max_users
      = acmeOrg.max_users := by
  refine ⟨(update_organization_only_supplied acmeOrg descriptionOnlyUpdate).2.1
      (Or.inl (by simp [descriptionOnlyUpdate])), ?_, ?_⟩
  · exact (update_organization_only_supplied acmeOrg descriptionOnlyUpdate).2.2.2.2
      (Or.inl (by simp [descriptionOnlyUpdate]))
  · exact (update_organization_only_supplied acmeOrg descriptionOnlyUpdate).1.2.2.2.2.2.1

/-- C4 (code-bug evidence): when the organization row has been inserted and
the `org_owner` role lookup finds no role, `create_organization` does not
surface a 500-class configuration error — the inner 500 `HTTPException` is
caught by the blanket `except Exception` and rewrapped as a user-facing 400
"Organization creation failed: ..." whose detail merely quotes the 500. -/
theorem create_organization_role_missing_yields_400 :
    create_organization roleMissingEnv 7
      = .error ⟨400,
          "Organization creation failed: 500: org_owner role not found"⟩ := by
  rfl

/-- C9: the membership row handed to the store by the add-member endpoint
always carries the organization id from the URL path — the body's
`organization_id` is overwritten before insertion (the other body fields
pass through), so the endpoint resolves to the service applied to a payload
whose organization is the path organization, whatever the body said. -/
theorem add_member_payload_uses_path_org (org_id : UUID)
    (member_data : OrganizationMemberCreate)
    (insertFor : OrganizationMemberCreate → StoreResult OrganizationMember) :
    (add_organization_member_endpoint_payload org_id member_data).organization_id
      = org_id ∧
    (add_organization_member_endpoint_payload org_id member_data).user_id
      = member_data.user_id ∧
    (add_organization_member_endpoint_payload org_id member_data).role_id
      = member_data.role_id ∧
    (add_organization_member_endpoint_payload org_id member_data).is_active
      = member_data.is_active ∧
    add_organization_member_endpoint org_id member_data insertFor
      = add_organization_member_service
          (insertFor { member_data with organization_id := org_id }) :=
  ⟨rfl, rfl, rfl, rfl, rfl⟩

/-- C6: `get_user_permissions` is a total function into permission lists —
no membership row for the user in the organization yields `[]`, never an
error, and an existing row yields exactly its permission list. -/
theorem get_user_permissions_total (rows : List UserPermissionsRow)
    (user_id org_id : UUID) :
    ((∀ r ∈ rows, ¬ (r.user_id = user_id ∧ r.organization_id = org_id)) →
      get_user_permissions rows user_id org_id = []) ∧
    (∀ r, queryUserPermissionsRow rows user_id org_id = some r →
      get_user_permissions rows user_id org_id = r.permissions) := by
  constructor
  · intro h
    have hfind : queryUserPermissionsRow rows user_id org_id = none := by
      unfold queryUserPermissionsRow
      rw [List.find?_eq_none]
      intro r hr
      have hnot := h r hr
      simp only [Bool.and_eq_true, beq_iff_eq]
      tauto
    simp [get_user_permissions, hfind]
  · intro r hr
    unfold get_user_permissions
    rw [hr]
    cases hp : r.permissions with
    | nil => simp [hp]
    | cons a l => simp [hp]

/-- Witness for C6: user 5 has no membership row in organization 2, and
the call returns the empty list. -/
theorem get_user_permissions_total_witness :
    get_user_permissions viewRows 5 2 = [] :=
  (get_user_permissions_total viewRows 5 2).1 (by
    intro r hr
    simp only [viewRows, List.mem_singleton] at hr
    simp [hr])

/-- C7: a successful `set_current_organization` followed by
`get_current_organization` for the same user returns exactly the
organization just set (the stored organization row whose id was set). -/
theorem set_then_get_current_organization (s : OrgContextState)
    (user_id org_id : UUID) (org : Organization)
    (horg : s.organizations.find? (fun g => g.id == org_id) = some org) :
    (set_current_organization s user_id org_id).2
      = .ok "Organization context updated successfully" ∧
    get_current_organization (set_current_organization s user_id org_id).1
      user_id = some org ∧
    org.id = org_id := by
  refine ⟨rfl, ?_, ?_⟩
  · simp [get_current_organization, set_current_organization, upsertContext,
      List.find?_cons, horg]
  · have := List.find?_some horg
    simpa using this

/-- Witness for C7: setting organization 11 for user 7 in the concrete
store and reading it back returns `acmeOrg` (whose id is 11). -/
theorem set_then_get_current_organization_witness :
    get_current_organization (set_current_organization acmeState 7 11).1 7
      = some acmeOrg :=
  (set_then_get_current_organization acmeState 7 11 acmeOrg
    (by simp [acmeState, List.find?_cons, acmeOrg])).2.1

/-- C8: the personal-organization bootstrap is non-fatal — whatever its
store responses do (auth lookup, org insert, role lookup, member insert,
pointer update raising or returning nothing), `_create_personal_organization`
returns successfully, and a first-time `get_profile` (no stored row, insert
succeeds) returns the created profile for every bootstrap behaviour. -/
theorem bootstrap_non_fatal (env : GetProfileEnv) (p : Profile) :
    (∀ benv : BootstrapEnv, create_personal_organization benv = .ok ()) ∧
    ((env.fetch1 = .ok none ∨ env.fetch1 = .ok (some [])) →
      (∃ rest, env.createInsert = .ok (some (p :: rest))) →
      get_profile env = .ok p) := by
  constructor
  · intro benv
    unfold create_personal_organization
    cases h : create_personal_organization_inner benv <;> simp
  · rintro h1 ⟨rest, h2⟩
    have hboot : create_personal_organization env.bootstrap = .ok () := by
      unfold create_personal_organization
      cases h : create_personal_organization_inner env.bootstrap <;> simp
    rcases h1 with h1 | h1 <;> simp [get_profile, h1, h2, hboot]

/-- Witness for C8: with the concrete broken bootstrap (its organization
insert raises), a first login still gets the created profile back. -/
theorem bootstrap_non_fatal_witness :
    get_profile firstLoginEnv = .ok { id := 9, full_name := none } :=
  (bootstrap_non_fatal firstLoginEnv { id := 9, full_name := none }).2
    (Or.inr rfl) ⟨[], rfl⟩

/-- C10 (code-bug evidence): the service passes `joined_at=None` to a
pydantic model whose `joined_at` field is a required `datetime`, so the
very first view row makes the constructor raise a `ValidationError`:
`get_organization_members` returns members only for an organization with
no view rows (the empty list), never the fabricated members the code
builds, and `RequireRole` — here at the concrete one-member environment —
propagates the crash instead of deciding from `user_id` and `role_name`. -/
theorem get_organization_members_validation_crash :
    (∀ (gen : Nat → UUID) (row : UserPermissionsRow)
       (rest : List UserPermissionsRow),
      get_organization_members gen (row :: rest)
        = .error joinedAtValidationError) ∧
    (∀ gen : Nat → UUID, get_organization_members gen [] = .ok []) ∧
    requireRoleCall ["org_owner"] acmeRoleEnv 1
      = .error joinedAtValidationError :=
  ⟨fun _ _ _ => rfl, fun _ => rfl, rfl⟩

/-- Witness for C2: in the concrete environment with no organization
context, the gate call with no explicit organization id yields the 400
"No organization context available" rejection. -/
theorem requirePermission_no_explicit_org_witness :
    requirePermissionCall ["document.view"] false noContextEnv 7 none
      = .error ⟨400, "No organization context available"⟩ :=
  (requirePermission_no_explicit_org ["document.view"] false noContextEnv 7).1
    (by simp [noContextEnv])

end PaperlessAI
